import Mathlib

/-!
Shallow embedding of the PrintCost (3DPrintCostCalculator) cost core:
the Filament / Printer / Consumable entity models and the CostCalculation
engine (calculate, compareScenarios, breakEvenAnalysis), translated from
`src/js/models/Printer.js`, `src/js/models/Consumable.js` and the Filament
model file.  JavaScript numbers are embedded as exact rationals (ℚ); the
wall clock and `crypto.randomUUID()` are passed in explicitly, so every
mutator is a pure state transformer.  Display-string helpers, the params
echo and the persistence layer are outside the scope of this development.
-/

namespace PrintCost

/-- The value of JavaScript `Math.PI` used by the filament geometry
(its exact numeric value is irrelevant to the algebraic properties proved
below; only positivity matters). -/
def jsPI : ℚ := 3.141592653589793

/-- JavaScript `a || b` on strings: `b` when `a` is absent or empty. -/
def jsOrString (a : Option String) (b : String) : String :=
  match a with
  | none => b
  | some s => if s = "" then b else s

/-! ## Filament model (`class Filament`) -/

/-- Filament entity state, the fields of the `Filament` constructor that the
cost and geometry operations read. -/
structure Filament where
  id : String
  name : String
  material : String
  diameter : ℚ
  density : ℚ
  spoolWeight : ℚ
  spoolPrice : ℚ
  inStock : ℚ
  spoolsInStock : ℚ

/-- `Filament.getPricePerGram`: spoolPrice / spoolWeight, 0 when spoolWeight ≤ 0. -/
def Filament.getPricePerGram (f : Filament) : ℚ :=
  if f.spoolWeight ≤ 0 then 0 else f.spoolPrice / f.spoolWeight

/-- `Filament.getCost(grams)`. -/
def Filament.getCost (f : Filament) (grams : ℚ) : ℚ :=
  grams * f.getPricePerGram

/-- `Filament.lengthToWeight(lengthMm)`: cylindrical volume times density. -/
def Filament.lengthToWeight (f : Filament) (lengthMm : ℚ) : ℚ :=
  let radiusCm := (f.diameter / 2) / 10
  let lengthCm := lengthMm / 10
  let volumeCm3 := jsPI * radiusCm ^ 2 * lengthCm
  volumeCm3 * f.density

/-- `Filament.weightToLength(grams)`: inverse of `lengthToWeight`. -/
def Filament.weightToLength (f : Filament) (grams : ℚ) : ℚ :=
  let radiusCm := (f.diameter / 2) / 10
  let volumeCm3 := grams / f.density
  let lengthCm := volumeCm3 / (jsPI * radiusCm ^ 2)
  lengthCm * 10

/-! ## Consumable model (`class Consumable`) -/

/-- One entry of `replacementHistory`, as pushed by `markReplaced`
(the source stores the wall-clock timestamp under the key `date`). -/
structure ReplacementRecord where
  date : String
  hoursUsed : ℚ
  gramsUsed : ℚ
  printsCompleted : ℚ
deriving DecidableEq

/-- Consumable entity state (all fields set by the `Consumable` constructor). -/
structure Consumable where
  id : String
  name : String
  type : String
  printerId : Option String
  unitPrice : ℚ
  quantity : ℚ
  estimatedLifetimeHours : ℚ
  currentHours : ℚ
  estimatedLifetimePrints : Option ℚ
  currentPrints : ℚ
  estimatedLifetimeGrams : Option ℚ
  currentGrams : ℚ
  lastReplaced : Option String
  replacementHistory : List ReplacementRecord
  notes : String
  createdAt : String
  updatedAt : String

/-- `Consumable.getCostPerHour`: unitPrice / estimatedLifetimeHours, 0 when
the lifetime is ≤ 0. -/
def Consumable.getCostPerHour (c : Consumable) : ℚ :=
  if c.estimatedLifetimeHours ≤ 0 then 0 else c.unitPrice / c.estimatedLifetimeHours

/-- `Consumable.getCost(printTimeMinutes)`. -/
def Consumable.getCost (c : Consumable) (printTimeMinutes : ℚ) : ℚ :=
  c.getCostPerHour * (printTimeMinutes / 60)

/-- `Consumable.addUsage(hours, grams)`; `now` is the wall-clock timestamp the
source obtains from `new Date().toISOString()`. -/
def Consumable.addUsage (c : Consumable) (hours grams : ℚ) (now : String) : Consumable :=
  { c with
    currentHours := c.currentHours + hours
    currentGrams := c.currentGrams + grams
    currentPrints := c.currentPrints + 1
    updatedAt := now }

/-- `Consumable.markReplaced()`: push a snapshot of the current counters onto
`replacementHistory`, reset the counters, floor-decrement `quantity`, and stamp
`lastReplaced`; `now` is the injected wall-clock timestamp. -/
def Consumable.markReplaced (c : Consumable) (now : String) : Consumable :=
  { c with
    replacementHistory := c.replacementHistory ++
      [{ date := now
         hoursUsed := c.currentHours
         gramsUsed := c.currentGrams
         printsCompleted := c.currentPrints }]
    currentHours := 0
    currentGrams := 0
    currentPrints := 0
    lastReplaced := some now
    quantity := max 0 (c.quantity - 1)
    updatedAt := now }

/-! ## Printer model (`class Printer`)

The `Printer` class file shipped under `src/` is the v1.0 model: its
constructor and `toJSON` know nothing of the AMS (the auxiliary
multi-material module).  The rest of the repository — the cost engine
(`CostCalculation.calculate` reads `printer.hasAms` / `printer.ams` and calls
`printer.getAmsDepreciationCost`), the UI (which edits `printer.hasAms`,
`printer.ams` and calls `printer.getAmsDepreciationPerHour`), and the README
("AMS support (power consumption and depreciation tracking)", v1.1.0) —
requires the AMS extension of the printer model, which is therefore
repository code missing from `src/`.  The AMS fields and the two AMS
depreciation methods below are modelled from the spec (§3 AuxiliaryModule,
§4.1 depreciation operations); everything else is translated from the
source file. -/

/-- Power consumption record of a printer (`powerConsumption` field). -/
structure PowerConsumption where
  printing : ℚ
  idle : ℚ
  heated : ℚ
deriving DecidableEq

/-- Build volume record of a printer (`buildVolume` field). -/
structure BuildVolume where
  x : ℚ
  y : ℚ
  z : ℚ
deriving DecidableEq

/-- Power consumption record of an AMS unit (`ams.powerConsumption`,
shape taken from `App.savePrinter`). -/
structure AmsPowerConsumption where
  standby : ℚ
  working : ℚ
deriving DecidableEq

/-- Modelled from the spec: the optional auxiliary module (AMS) attached to a
printer — working-state watts, purchasePrice, estimatedLifetimeHours,
currentHours (spec §3); field shape as produced by `App.savePrinter`. -/
structure AmsModule where
  type : String
  name : String
  powerConsumption : AmsPowerConsumption
  purchasePrice : ℚ
  estimatedLifetimeHours : ℚ
  currentHours : ℚ
deriving DecidableEq

/-- Printer entity state.  The fields up to `updatedAt` are the ones set by
the `Printer` constructor in `src/`; `hasAms` and `ams` are modelled from the
spec (§3): they are the dynamic properties read by the cost engine and the
UI, absent (`false` / `none`) on every instance built by the `src/`
constructor. -/
structure Printer where
  id : String
  name : String
  manufacturer : String
  model : String
  powerConsumption : PowerConsumption
  purchasePrice : ℚ
  estimatedLifetimeHours : ℚ
  currentHours : ℚ
  defaultFailureRate : ℚ
  buildVolume : BuildVolume
  consumableIds : List String
  notes : String
  createdAt : String
  updatedAt : String
  hasAms : Bool
  ams : Option AmsModule

/-- `Printer.getDepreciationPerHour`: purchasePrice / estimatedLifetimeHours,
0 when the lifetime is ≤ 0. -/
def Printer.getDepreciationPerHour (p : Printer) : ℚ :=
  if p.estimatedLifetimeHours ≤ 0 then 0 else p.purchasePrice / p.estimatedLifetimeHours

/-- `Printer.getDepreciationCost(printTimeMinutes)`. -/
def Printer.getDepreciationCost (p : Printer) (printTimeMinutes : ℚ) : ℚ :=
  p.getDepreciationPerHour * (printTimeMinutes / 60)

/-- `Printer.getElectricityCost(printTimeMinutes, electricityRate)`: printing
watts only (this v1.0 helper predates the AMS-aware inline computation in the
cost engine and is not called by it). -/
def Printer.getElectricityCost (p : Printer) (printTimeMinutes electricityRate : ℚ) : ℚ :=
  (p.powerConsumption.printing / 1000) * (printTimeMinutes / 60) * electricityRate

/-- Modelled from the spec: `Printer.getAmsDepreciationPerHour`, the AMS
analogue of `getDepreciationPerHour` — `depreciationPerHour(asset) =
purchasePrice / lifetimeHours, or 0 if lifetimeHours ≤ 0` (§4.1), 0 when no
auxiliary module is attached (§3, §4.1).  The method is called by the cost
engine and the UI but is absent from the `src/` printer class. -/
def Printer.getAmsDepreciationPerHour (p : Printer) : ℚ :=
  match p.hasAms, p.ams with
  | true, some a =>
      if a.estimatedLifetimeHours ≤ 0 then 0 else a.purchasePrice / a.estimatedLifetimeHours
  | _, _ => 0

/-- Modelled from the spec: `Printer.getAmsDepreciationCost(printTimeMinutes)`
— `depreciationCost(asset, minutes) = depreciationPerHour(asset) × minutes/60`
(§4.1) applied to the auxiliary module.  Called unconditionally by
`CostCalculation.calculate` but absent from the `src/` printer class. -/
def Printer.getAmsDepreciationCost (p : Printer) (printTimeMinutes : ℚ) : ℚ :=
  p.getAmsDepreciationPerHour * (printTimeMinutes / 60)

/-- Modelled from the spec: the dynamic method slot the cost engine invokes as
`printer.getAmsDepreciationCost(printTimeMinutes)`.  In JavaScript the call
throws `TypeError` exactly when the class provides no such method; the spec
(§4.1, §7: "No side effects; no errors raised") together with the repository's
AMS feature fixes the method as present with the depreciation semantics
above. -/
def amsDepreciationMethod : Option (Printer → ℚ → ℚ) :=
  some Printer.getAmsDepreciationCost

/-! ## Cost engine (`class CostCalculation`)

`calculate(params)` is embedded as one Lean definition per `let`-binding of
the source body (steps 1–9 and the percentages), assembled into a result
record.  The engine-level defaults that the source destructuring fills in
(`electricityRate = this.electricityRate`, `failureRate =
CONFIG.DEFAULTS.FAILURE_RATE`, zeros) are resolved by the caller here: a
`CalcParams` value carries the resolved numeric inputs.  The display-oriented
parts of the returned object (per-consumable display names, the `params`
echo) are outside the scope of this development. -/

/-- Resolved input record of `CostCalculation.calculate`. -/
structure CalcParams where
  printer : Printer
  filament : Filament
  consumables : List Consumable
  printTimeMinutes : ℚ
  filamentGrams : ℚ
  electricityRate : ℚ
  failureRate : ℚ
  laborHourlyRate : ℚ
  laborHours : ℚ
  markupPercent : ℚ

/-- The `percentages` object of the calculation result. -/
structure Percentages where
  filament : ℚ
  electricity : ℚ
  depreciation : ℚ
  consumables : ℚ
  labor : ℚ
deriving DecidableEq

/-- The numeric content of the object returned by
`CostCalculation.calculate`: the per-component costs of `breakdown`, the
summary fields, and `percentages`. -/
structure CalcResult where
  filamentCost : ℚ
  electricityWatts : ℚ
  electricityKwh : ℚ
  electricityCost : ℚ
  printerDepreciationCost : ℚ
  amsDepreciationCost : ℚ
  depreciationCost : ℚ
  consumablesCost : ℚ
  laborCost : ℚ
  subtotal : ℚ
  failureRate : ℚ
  failureBuffer : ℚ
  markupPercent : ℚ
  markupAmount : ℚ
  total : ℚ
  percentages : Percentages
deriving DecidableEq

namespace CostCalculation

/-- `const printTimeHours = printTimeMinutes / 60`. -/
def printTimeHours (p : CalcParams) : ℚ := p.printTimeMinutes / 60

/-- Step 1: `filamentCost = filamentGrams * filament.getPricePerGram()`. -/
def filamentCost (p : CalcParams) : ℚ := p.filamentGrams * p.filament.getPricePerGram

/-- Step 2: `powerWatts = printer.powerConsumption.printing`, plus
`printer.ams.powerConsumption.working` when `printer.hasAms && printer.ams`. -/
def powerWatts (p : CalcParams) : ℚ :=
  match p.printer.hasAms, p.printer.ams with
  | true, some a => p.printer.powerConsumption.printing + a.powerConsumption.working
  | _, _ => p.printer.powerConsumption.printing

/-- `energyKwh = (powerWatts * printTimeHours) / 1000`. -/
def energyKwh (p : CalcParams) : ℚ := powerWatts p * printTimeHours p / 1000

/-- `electricityCost = energyKwh * electricityRate`. -/
def electricityCost (p : CalcParams) : ℚ := energyKwh p * p.electricityRate

/-- Step 3: `printerDepreciationCost = printer.getDepreciationPerHour() * printTimeHours`. -/
def printerDepreciationCost (p : CalcParams) : ℚ :=
  p.printer.getDepreciationPerHour * printTimeHours p

/-- Step 3b: `amsDepreciationCost = printer.getAmsDepreciationCost(printTimeMinutes)`. -/
def amsDepreciationCost (p : CalcParams) : ℚ :=
  p.printer.getAmsDepreciationCost p.printTimeMinutes

/-- `depreciationCost = printerDepreciationCost + amsDepreciationCost`. -/
def depreciationCost (p : CalcParams) : ℚ :=
  printerDepreciationCost p + amsDepreciationCost p

/-- Step 4: the `consumablesCost` accumulator — for each consumable,
`cost = consumable.getCostPerHour() * printTimeHours`, summed in list
order. -/
def consumablesCost (p : CalcParams) : ℚ :=
  p.consumables.foldl (fun acc c => acc + c.getCostPerHour * printTimeHours p) 0

/-- Step 5: `laborCost = laborHourlyRate * laborHours`. -/
def laborCost (p : CalcParams) : ℚ := p.laborHourlyRate * p.laborHours

/-- Step 6: `subtotal = filamentCost + electricityCost + depreciationCost +
consumablesCost + laborCost`. -/
def subtotal (p : CalcParams) : ℚ :=
  filamentCost p + electricityCost p + depreciationCost p + consumablesCost p + laborCost p

/-- Step 7: `effectiveCost = failureRate < 1 ? subtotal / (1 - failureRate) : subtotal`. -/
def effectiveCost (p : CalcParams) : ℚ :=
  if p.failureRate < 1 then subtotal p / (1 - p.failureRate) else subtotal p

/-- `failureBuffer = effectiveCost - subtotal`. -/
def failureBuffer (p : CalcParams) : ℚ := effectiveCost p - subtotal p

/-- Step 8: `markupAmount = effectiveCost * (markupPercent / 100)`. -/
def markupAmount (p : CalcParams) : ℚ := effectiveCost p * (p.markupPercent / 100)

/-- Step 9: `total = effectiveCost + markupAmount`. -/
def total (p : CalcParams) : ℚ := effectiveCost p + markupAmount p

/-- The `percentages` object: each component cost / subtotal × 100 when
subtotal > 0, else all zero. -/
def percentages (p : CalcParams) : Percentages :=
  if subtotal p > 0 then
    { filament := filamentCost p / subtotal p * 100
      electricity := electricityCost p / subtotal p * 100
      depreciation := depreciationCost p / subtotal p * 100
      consumables := consumablesCost p / subtotal p * 100
      labor := laborCost p / subtotal p * 100 }
  else
    { filament := 0, electricity := 0, depreciation := 0, consumables := 0, labor := 0 }

/-- `CostCalculation.calculate(params)`: the returned record. -/
def calculate (p : CalcParams) : CalcResult :=
  { filamentCost := filamentCost p
    electricityWatts := powerWatts p
    electricityKwh := energyKwh p
    electricityCost := electricityCost p
    printerDepreciationCost := printerDepreciationCost p
    amsDepreciationCost := amsDepreciationCost p
    depreciationCost := depreciationCost p
    consumablesCost := consumablesCost p
    laborCost := laborCost p
    subtotal := subtotal p
    failureRate := p.failureRate
    failureBuffer := failureBuffer p
    markupPercent := p.markupPercent
    markupAmount := markupAmount p
    total := total p
    percentages := percentages p }

/-! ### Exception-aware variant

`calculateChecked` re-runs the same pipeline but surfaces, as `Except.error`,
every step at which the JavaScript execution could fail: a rational division
whose divisor is zero (the embedding in ℚ is only faithful where the source's
guards keep every divisor nonzero), and the dynamic dispatch of the AMS
depreciation method (a `TypeError` in JavaScript when the method is absent).
Proving `calculateChecked p = Except.ok (calculate p)` for every `p` is the
formal content of "no exceptions are raised; all degenerate numeric
configurations resolve to zero or to the documented boundary behavior". -/

/-- Division that reports a zero divisor instead of defaulting to 0. -/
def checkedDiv (a b : ℚ) : Except String ℚ :=
  if b = 0 then Except.error "zero divisor" else Except.ok (a / b)

/-- `Filament.getPricePerGram` with its division checked. -/
def pricePerGramChecked (f : Filament) : Except String ℚ :=
  if f.spoolWeight ≤ 0 then Except.ok 0 else checkedDiv f.spoolPrice f.spoolWeight

/-- `Printer.getDepreciationPerHour` with its division checked. -/
def depreciationPerHourChecked (pr : Printer) : Except String ℚ :=
  if pr.estimatedLifetimeHours ≤ 0 then Except.ok 0
  else checkedDiv pr.purchasePrice pr.estimatedLifetimeHours

/-- `Consumable.getCostPerHour` with its division checked. -/
def costPerHourChecked (c : Consumable) : Except String ℚ :=
  if c.estimatedLifetimeHours ≤ 0 then Except.ok 0
  else checkedDiv c.unitPrice c.estimatedLifetimeHours

/-- The AMS depreciation method resolved through the dynamic method slot, its
own division checked. -/
def amsDepreciationCostChecked (pr : Printer) (printTimeMinutes : ℚ) : Except String ℚ := do
  match amsDepreciationMethod with
  | none => Except.error "TypeError: printer.getAmsDepreciationCost is not a function"
  | some _ =>
      let perHour ←
        match pr.hasAms, pr.ams with
        | true, some a =>
            if a.estimatedLifetimeHours ≤ 0 then Except.ok 0
            else checkedDiv a.purchasePrice a.estimatedLifetimeHours
        | _, _ => Except.ok 0
      Except.ok (perHour * (printTimeMinutes / 60))

/-- The `percentages` object with its divisions checked. -/
def percentagesChecked (p : CalcParams) : Except String Percentages :=
  if subtotal p > 0 then do
    let f ← checkedDiv (filamentCost p) (subtotal p)
    let e ← checkedDiv (electricityCost p) (subtotal p)
    let d ← checkedDiv (depreciationCost p) (subtotal p)
    let c ← checkedDiv (consumablesCost p) (subtotal p)
    let l ← checkedDiv (laborCost p) (subtotal p)
    Except.ok
      { filament := f * 100, electricity := e * 100, depreciation := d * 100
        consumables := c * 100, labor := l * 100 }
  else
    Except.ok { filament := 0, electricity := 0, depreciation := 0, consumables := 0, labor := 0 }

/-- `calculate` with every fallible step surfaced. -/
def calculateChecked (p : CalcParams) : Except String CalcResult := do
  let ppg ← pricePerGramChecked p.filament
  let fc := p.filamentGrams * ppg
  let dph ← depreciationPerHourChecked p.printer
  let pdc := dph * printTimeHours p
  let adc ← amsDepreciationCostChecked p.printer p.printTimeMinutes
  let dc := pdc + adc
  let cc ← p.consumables.foldlM
    (fun acc c => do
      let cph ← costPerHourChecked c
      Except.ok (acc + cph * printTimeHours p)) 0
  let lc := laborCost p
  let st := fc + electricityCost p + dc + cc + lc
  let eff ← if p.failureRate < 1 then checkedDiv st (1 - p.failureRate) else Except.ok st
  let pcts ← percentagesChecked p
  Except.ok
    { filamentCost := fc
      electricityWatts := powerWatts p
      electricityKwh := energyKwh p
      electricityCost := electricityCost p
      printerDepreciationCost := pdc
      amsDepreciationCost := adc
      depreciationCost := dc
      consumablesCost := cc
      laborCost := lc
      subtotal := st
      failureRate := p.failureRate
      failureBuffer := eff - st
      markupPercent := p.markupPercent
      markupAmount := eff * (p.markupPercent / 100)
      total := eff + eff * (p.markupPercent / 100)
      percentages := pcts }

/-! ### Scenario comparator and break-even analyzer -/

/-- One entry of the `compareScenarios` output (the comparison annotations
attached to each result). -/
structure CompareEntry where
  index : ℕ
  result : CalcResult
  isLowest : Bool
  isHighest : Bool
  differenceFromLowest : ℚ
  percentFromLowest : ℚ

/-- `CostCalculation.compareScenarios(scenarios)`: run `calculate` on every
scenario, compute `minTotal` / `maxTotal` with `Math.min` / `Math.max` over
the totals, and annotate each result.  (On the empty list the source maps
over an empty results array and returns `[]`.) -/
def compareScenarios (scenarios : List CalcParams) : List CompareEntry :=
  let results := scenarios.map calculate
  match results.map CalcResult.total with
  | [] => []
  | t :: ts =>
    let minTotal := ts.foldl min t
    let maxTotal := ts.foldl max t
    results.enum.map fun ir =>
      { index := ir.1
        result := ir.2
        isLowest := decide (ir.2.total = minTotal)
        isHighest := decide (ir.2.total = maxTotal)
        differenceFromLowest := ir.2.total - minTotal
        percentFromLowest :=
          if minTotal > 0 then (ir.2.total - minTotal) / minTotal * 100 else 0 }

/-- The object returned by `breakEvenAnalysis`; `breakEvenQuantity` lives in
`WithTop ℚ` so that the non-profitable branch's `Infinity` is representable;
the branch-specific fields are optional. -/
structure BreakEvenResult where
  breakEvenQuantity : WithTop ℚ
  marginPerUnit : ℚ
  profitable : Bool
  message : Option String
  fixedCosts : Option ℚ
  costPerUnit : Option ℚ
  pricePerUnit : Option ℚ
deriving DecidableEq

/-- `CostCalculation.breakEvenAnalysis({fixedCosts, costPerUnit, pricePerUnit})`. -/
def breakEvenAnalysis (fixedCosts costPerUnit pricePerUnit : ℚ) : BreakEvenResult :=
  let marginPerUnit := pricePerUnit - costPerUnit
  if marginPerUnit ≤ 0 then
    { breakEvenQuantity := ⊤
      marginPerUnit := marginPerUnit
      profitable := false
      message := some "Selling price must be higher than cost per unit"
      fixedCosts := none, costPerUnit := none, pricePerUnit := none }
  else
    { breakEvenQuantity := ((⌈fixedCosts / marginPerUnit⌉ : ℤ) : ℚ)
      marginPerUnit := marginPerUnit
      profitable := true
      message := none
      fixedCosts := some fixedCosts
      costPerUnit := some costPerUnit
      pricePerUnit := some pricePerUnit }

end CostCalculation

/-! ## Printer entity records (`new Printer(data)` / `Printer.prototype.toJSON`)

The plain record exchanged with the caller: every field the `Printer`
constructor reads is optional (default-filled when absent), and `hasAms` /
`ams` are the extra fields `App.savePrinter` places on the record it passes
to the constructor. -/

/-- Optional `powerConsumption` sub-record of a printer record. -/
structure PowerConsumptionData where
  printing : Option ℚ := none
  idle : Option ℚ := none
  heated : Option ℚ := none
deriving DecidableEq

/-- Optional `buildVolume` sub-record of a printer record. -/
structure BuildVolumeData where
  x : Option ℚ := none
  y : Option ℚ := none
  z : Option ℚ := none
deriving DecidableEq

/-- A plain printer record as produced by the caller (`App.savePrinter`) or
read back from storage. -/
structure PrinterData where
  id : Option String := none
  name : Option String := none
  manufacturer : Option String := none
  model : Option String := none
  powerConsumption : Option PowerConsumptionData := none
  purchasePrice : Option ℚ := none
  estimatedLifetimeHours : Option ℚ := none
  currentHours : Option ℚ := none
  defaultFailureRate : Option ℚ := none
  buildVolume : Option BuildVolumeData := none
  consumableIds : Option (List String) := none
  notes : Option String := none
  createdAt : Option String := none
  updatedAt : Option String := none
  hasAms : Option Bool := none
  ams : Option AmsModule := none
deriving DecidableEq

/-- The `Printer` constructor of `src/`: default-fills every field it reads
(`CONFIG.DEFAULTS.PRINTER_POWER_WATTS = 120`,
`CONFIG.DEFAULTS.PRINTER_LIFETIME_HOURS = 5000`,
`CONFIG.DEFAULTS.FAILURE_RATE = 0.05`).  It reads no AMS field, so the
instance carries `hasAms := false`, `ams := none` whatever the record held;
`freshId` and `now` stand for `crypto.randomUUID()` and
`new Date().toISOString()`. -/
def mkPrinter (data : PrinterData) (freshId now : String) : Printer :=
  { id := jsOrString data.id freshId
    name := jsOrString data.name ""
    manufacturer := jsOrString data.manufacturer ""
    model := jsOrString data.model ""
    powerConsumption :=
      { printing := ((data.powerConsumption.bind PowerConsumptionData.printing).getD 120)
        idle := ((data.powerConsumption.bind PowerConsumptionData.idle).getD 10)
        heated := ((data.powerConsumption.bind PowerConsumptionData.heated).getD 200) }
    purchasePrice := data.purchasePrice.getD 0
    estimatedLifetimeHours := data.estimatedLifetimeHours.getD 5000
    currentHours := data.currentHours.getD 0
    defaultFailureRate := data.defaultFailureRate.getD 0.05
    buildVolume :=
      { x := ((data.buildVolume.bind BuildVolumeData.x).getD 220)
        y := ((data.buildVolume.bind BuildVolumeData.y).getD 220)
        z := ((data.buildVolume.bind BuildVolumeData.z).getD 250) }
    consumableIds := data.consumableIds.getD []
    notes := jsOrString data.notes ""
    createdAt := jsOrString data.createdAt now
    updatedAt := jsOrString data.updatedAt now
    hasAms := false
    ams := none }

/-- `Printer.prototype.toJSON` of `src/`: emits exactly the constructor's
fields — there is no `hasAms` or `ams` key in the returned object. -/
def Printer.toJSON (p : Printer) : PrinterData :=
  { id := some p.id
    name := some p.name
    manufacturer := some p.manufacturer
    model := some p.model
    powerConsumption := some
      { printing := some p.powerConsumption.printing
        idle := some p.powerConsumption.idle
        heated := some p.powerConsumption.heated }
    purchasePrice := some p.purchasePrice
    estimatedLifetimeHours := some p.estimatedLifetimeHours
    currentHours := some p.currentHours
    defaultFailureRate := some p.defaultFailureRate
    buildVolume := some
      { x := some p.buildVolume.x
        y := some p.buildVolume.y
        z := some p.buildVolume.z }
    consumableIds := some p.consumableIds
    notes := some p.notes
    createdAt := some p.createdAt
    updatedAt := some p.updatedAt
    hasAms := none
    ams := none }

/-- The printer record `App.savePrinter` assembles when the user checks the
AMS box: `hasAms: true` and an `ams` sub-record (here: a Bambu Lab AMS at
200 W working draw bought for 349 with a 5000 h lifetime). -/
def savedPrinterRecord : PrinterData :=
  { id := some "printer-1"
    name := some "My P1S"
    manufacturer := some "Bambu Lab"
    model := some "P1S"
    powerConsumption := some { printing := some 120, idle := some 10, heated := some 200 }
    purchasePrice := some 699
    estimatedLifetimeHours := some 5000
    currentHours := some 0
    defaultFailureRate := some 0.05
    notes := some ""
    hasAms := some true
    ams := some
      { type := "ams"
        name := "AMS"
        powerConsumption := { standby := 2, working := 200 }
        purchasePrice := 349
        estimatedLifetimeHours := 5000
        currentHours := 0 } }

/-! ## Concrete entities (the spec's worked examples) -/

/-- The spec's end-to-end example printer: purchasePrice 300, lifetime
5000 h, 120 W printing draw, no auxiliary module. -/
def examplePrinter : Printer :=
  { id := "printer-example"
    name := "Example"
    manufacturer := ""
    model := ""
    powerConsumption := { printing := 120, idle := 10, heated := 200 }
    purchasePrice := 300
    estimatedLifetimeHours := 5000
    currentHours := 0
    defaultFailureRate := 0.05
    buildVolume := { x := 220, y := 220, z := 250 }
    consumableIds := []
    notes := ""
    createdAt := ""
    updatedAt := ""
    hasAms := false
    ams := none }

/-- The spec's example filament: spoolPrice 25, spoolWeight 1000 g,
standard 1.75 mm PLA. -/
def exampleFilament : Filament :=
  { id := "filament-example"
    name := "PLA"
    material := "PLA"
    diameter := 1.75
    density := 1.24
    spoolWeight := 1000
    spoolPrice := 25
    inStock := 0
    spoolsInStock := 0 }

/-- The spec's end-to-end example calculation parameters: 60 min, 20 g,
rate 0.15, failure rate 0.05, no labor, no consumables, no markup. -/
def exampleParams : CalcParams :=
  { printer := examplePrinter
    filament := exampleFilament
    consumables := []
    printTimeMinutes := 60
    filamentGrams := 20
    electricityRate := 0.15
    failureRate := 0.05
    laborHourlyRate := 0
    laborHours := 0
    markupPercent := 0 }

/-- An attached auxiliary module: 200 W working draw, purchase price 349,
5000 h lifetime. -/
def amsUnit : AmsModule :=
  { type := "ams"
    name := "AMS"
    powerConsumption := { standby := 2, working := 200 }
    purchasePrice := 349
    estimatedLifetimeHours := 5000
    currentHours := 0 }

/-- The example printer with the auxiliary module attached. -/
def amsPrinter : Printer :=
  { examplePrinter with hasAms := true, ams := some amsUnit }

/-- The example parameters run on the AMS-equipped printer. -/
def amsParams : CalcParams :=
  { exampleParams with printer := amsPrinter }

/-- A labor-only scenario: with everything else zeroed, the total equals the
labor cost, giving full control of the comparator's totals. -/
def laborScenario (rate : ℚ) : CalcParams :=
  { exampleParams with
    printTimeMinutes := 0
    filamentGrams := 0
    failureRate := 0
    laborHourlyRate := rate
    laborHours := 1 }

/-- The spec's comparator example: three scenarios with totals 10, 7, 12. -/
def compareExample : List CalcParams :=
  [laborScenario 10, laborScenario 7, laborScenario 12]

/-! ## Theorems -/

theorem jsPI_pos : 0 < jsPI := by norm_num [jsPI]

/-- C5: for every filament with density > 0 and diameter > 0 and every
weight g > 0, `lengthToWeight (weightToLength g)` equals `g` exactly over
exact arithmetic (hence within any relative tolerance, in particular 1e-6):
the two conversions are mutual inverses under the cylindrical-volume
model. -/
theorem lengthToWeight_weightToLength_roundtrip (f : Filament)
    (hρ : 0 < f.density) (hδ : 0 < f.diameter) (g : ℚ) (hg : 0 < g) :
    f.lengthToWeight (f.weightToLength g) = g := by
  have hπ : jsPI ≠ 0 := ne_of_gt jsPI_pos
  have h1 : f.density ≠ 0 := ne_of_gt hρ
  have h2 : f.diameter ≠ 0 := ne_of_gt hδ
  simp only [Filament.lengthToWeight, Filament.weightToLength]
  field_simp
  ring

/-- Witness for C5 at the example filament (1.75 mm, density 1.24) and
g = 5 grams. -/
theorem lengthToWeight_weightToLength_roundtrip_witness :
    0 < exampleFilament.density ∧ 0 < exampleFilament.diameter ∧ (0:ℚ) < 5 ∧
      exampleFilament.lengthToWeight (exampleFilament.weightToLength 5) = 5 :=
  ⟨by norm_num [exampleFilament], by norm_num [exampleFilament], by norm_num,
    lengthToWeight_weightToLength_roundtrip exampleFilament
      (by norm_num [exampleFilament]) (by norm_num [exampleFilament]) 5 (by norm_num)⟩

/-- C8: `markReplaced` appends exactly one snapshot of the current counters
to `replacementHistory` (existing entries unchanged: the old history is a
prefix of the new one), resets `currentHours`, `currentGrams` and
`currentPrints` to 0, floors the decremented `quantity` at 0 (so it never
becomes negative), and stamps `lastReplaced`. -/
theorem markReplaced_spec (c : Consumable) (now : String) :
    (c.markReplaced now).replacementHistory =
      c.replacementHistory ++
        [{ date := now, hoursUsed := c.currentHours, gramsUsed := c.currentGrams,
           printsCompleted := c.currentPrints }] ∧
    (c.markReplaced now).currentHours = 0 ∧
    (c.markReplaced now).currentGrams = 0 ∧
    (c.markReplaced now).currentPrints = 0 ∧
    (c.markReplaced now).quantity = max 0 (c.quantity - 1) ∧
    0 ≤ (c.markReplaced now).quantity ∧
    (c.markReplaced now).lastReplaced = some now :=
  ⟨rfl, rfl, rfl, rfl, rfl, le_max_left 0 (c.quantity - 1), rfl⟩

/-- C10: `addUsage` and `markReplaced` leave the identity, pricing and
lifetime fields of a consumable unchanged (hence `getCostPerHour` is
unaffected), and `addUsage` additionally leaves `quantity`, `lastReplaced`
and `replacementHistory` unchanged. -/
theorem consumable_mutators_frame (c : Consumable) (h g : ℚ) (now : String) :
    (c.addUsage h g now).id = c.id ∧
    (c.addUsage h g now).name = c.name ∧
    (c.addUsage h g now).type = c.type ∧
    (c.addUsage h g now).printerId = c.printerId ∧
    (c.addUsage h g now).unitPrice = c.unitPrice ∧
    (c.addUsage h g now).estimatedLifetimeHours = c.estimatedLifetimeHours ∧
    (c.addUsage h g now).estimatedLifetimePrints = c.estimatedLifetimePrints ∧
    (c.addUsage h g now).estimatedLifetimeGrams = c.estimatedLifetimeGrams ∧
    (c.addUsage h g now).getCostPerHour = c.getCostPerHour ∧
    (c.addUsage h g now).quantity = c.quantity ∧
    (c.addUsage h g now).lastReplaced = c.lastReplaced ∧
    (c.addUsage h g now).replacementHistory = c.replacementHistory ∧
    (c.markReplaced now).id = c.id ∧
    (c.markReplaced now).name = c.name ∧
    (c.markReplaced now).type = c.type ∧
    (c.markReplaced now).printerId = c.printerId ∧
    (c.markReplaced now).unitPrice = c.unitPrice ∧
    (c.markReplaced now).estimatedLifetimeHours = c.estimatedLifetimeHours ∧
    (c.markReplaced now).estimatedLifetimePrints = c.estimatedLifetimePrints ∧
    (c.markReplaced now).estimatedLifetimeGrams = c.estimatedLifetimeGrams ∧
    (c.markReplaced now).getCostPerHour = c.getCostPerHour :=
  ⟨rfl, rfl, rfl, rfl, rfl, rfl, rfl, rfl, rfl, rfl, rfl, rfl,
   rfl, rfl, rfl, rfl, rfl, rfl, rfl, rfl, rfl⟩

theorem subtotal_eq_components (p : CalcParams) :
    CostCalculation.subtotal p =
      CostCalculation.filamentCost p + CostCalculation.electricityCost p +
        CostCalculation.depreciationCost p + CostCalculation.consumablesCost p +
        CostCalculation.laborCost p := rfl

/-- C1: the record returned by `calculate` satisfies the summation and
failure-buffer identities: subtotal is the sum of the five component costs;
the effective cost is subtotal / (1 − failureRate) when failureRate < 1 and
subtotal otherwise; failureBuffer = effectiveCost − subtotal; markupAmount =
effectiveCost × markupPercent/100; and total = effectiveCost + markupAmount =
subtotal + failureBuffer + markupAmount. -/
theorem calculate_cost_identities (p : CalcParams) :
    (CostCalculation.calculate p).subtotal =
        (CostCalculation.calculate p).filamentCost +
        (CostCalculation.calculate p).electricityCost +
        (CostCalculation.calculate p).depreciationCost +
        (CostCalculation.calculate p).consumablesCost +
        (CostCalculation.calculate p).laborCost ∧
    (p.failureRate < 1 →
      CostCalculation.effectiveCost p =
        (CostCalculation.calculate p).subtotal / (1 - p.failureRate)) ∧
    (1 ≤ p.failureRate →
      CostCalculation.effectiveCost p = (CostCalculation.calculate p).subtotal) ∧
    (CostCalculation.calculate p).failureBuffer =
        CostCalculation.effectiveCost p - (CostCalculation.calculate p).subtotal ∧
    (CostCalculation.calculate p).markupAmount =
        CostCalculation.effectiveCost p * ((CostCalculation.calculate p).markupPercent / 100) ∧
    (CostCalculation.calculate p).total =
        CostCalculation.effectiveCost p + (CostCalculation.calculate p).markupAmount ∧
    (CostCalculation.calculate p).total =
        (CostCalculation.calculate p).subtotal + (CostCalculation.calculate p).failureBuffer +
          (CostCalculation.calculate p).markupAmount := by
  refine ⟨rfl, fun h => ?_, fun h => ?_, rfl, rfl, rfl, ?_⟩
  · simp only [CostCalculation.effectiveCost, if_pos h]; rfl
  · simp only [CostCalculation.effectiveCost, if_neg (not_lt.mpr h)]; rfl
  · show CostCalculation.total p =
      CostCalculation.subtotal p + CostCalculation.failureBuffer p + CostCalculation.markupAmount p
    simp only [CostCalculation.total, CostCalculation.failureBuffer]
    ring

/-- Witness for C1 at the spec's end-to-end example (failureRate 0.05 < 1). -/
theorem calculate_cost_identities_witness :
    exampleParams.failureRate < 1 ∧
      CostCalculation.effectiveCost exampleParams =
        (CostCalculation.calculate exampleParams).subtotal / (1 - exampleParams.failureRate) :=
  ⟨by norm_num [exampleParams],
    (calculate_cost_identities exampleParams).2.1 (by norm_num [exampleParams])⟩

/-- C3: the `percentages` object is computed against subtotal: when
subtotal > 0 each entry is that component's cost / subtotal × 100 and the
five entries sum to exactly 100 (hence within 1e-9); when subtotal ≤ 0 all
five entries are 0. -/
theorem calculate_percentages_spec (p : CalcParams) :
    ((CostCalculation.calculate p).subtotal > 0 →
      (CostCalculation.calculate p).percentages.filament =
          (CostCalculation.calculate p).filamentCost / (CostCalculation.calculate p).subtotal * 100 ∧
      (CostCalculation.calculate p).percentages.electricity =
          (CostCalculation.calculate p).electricityCost / (CostCalculation.calculate p).subtotal * 100 ∧
      (CostCalculation.calculate p).percentages.depreciation =
          (CostCalculation.calculate p).depreciationCost / (CostCalculation.calculate p).subtotal * 100 ∧
      (CostCalculation.calculate p).percentages.consumables =
          (CostCalculation.calculate p).consumablesCost / (CostCalculation.calculate p).subtotal * 100 ∧
      (CostCalculation.calculate p).percentages.labor =
          (CostCalculation.calculate p).laborCost / (CostCalculation.calculate p).subtotal * 100 ∧
      (CostCalculation.calculate p).percentages.filament +
          (CostCalculation.calculate p).percentages.electricity +
          (CostCalculation.calculate p).percentages.depreciation +
          (CostCalculation.calculate p).percentages.consumables +
          (CostCalculation.calculate p).percentages.labor = 100 ∧
      |(CostCalculation.calculate p).percentages.filament +
          (CostCalculation.calculate p).percentages.electricity +
          (CostCalculation.calculate p).percentages.depreciation +
          (CostCalculation.calculate p).percentages.consumables +
          (CostCalculation.calculate p).percentages.labor - 100| ≤ 1 / 1000000000) ∧
    ((CostCalculation.calculate p).subtotal ≤ 0 →
      (CostCalculation.calculate p).percentages =
        { filament := 0, electricity := 0, depreciation := 0, consumables := 0, labor := 0 }) := by
  constructor
  · intro h
    have h' : CostCalculation.subtotal p > 0 := h
    have hne : CostCalculation.subtotal p ≠ 0 := ne_of_gt h'
    have hpcts : (CostCalculation.calculate p).percentages =
        { filament := CostCalculation.filamentCost p / CostCalculation.subtotal p * 100
          electricity := CostCalculation.electricityCost p / CostCalculation.subtotal p * 100
          depreciation := CostCalculation.depreciationCost p / CostCalculation.subtotal p * 100
          consumables := CostCalculation.consumablesCost p / CostCalculation.subtotal p * 100
          labor := CostCalculation.laborCost p / CostCalculation.subtotal p * 100 } := by
      show CostCalculation.percentages p = _
      rw [CostCalculation.percentages, if_pos h']
    rw [hpcts]
    have hsum : CostCalculation.filamentCost p / CostCalculation.subtotal p * 100 +
        CostCalculation.electricityCost p / CostCalculation.subtotal p * 100 +
        CostCalculation.depreciationCost p / CostCalculation.subtotal p * 100 +
        CostCalculation.consumablesCost p / CostCalculation.subtotal p * 100 +
        CostCalculation.laborCost p / CostCalculation.subtotal p * 100 = 100 := by
      have hcomp := subtotal_eq_components p
      field_simp
      linarith [hcomp]
    exact ⟨rfl, rfl, rfl, rfl, rfl, hsum, by rw [hsum]; norm_num⟩
  · intro h
    have h' : ¬ CostCalculation.subtotal p > 0 := not_lt.mpr h
    show CostCalculation.percentages p = _
    rw [CostCalculation.percentages, if_neg h']

/-- Witness for C3 at the spec's end-to-end example (subtotal 0.578 > 0):
the five percentage entries sum to exactly 100. -/
theorem calculate_percentages_spec_witness :
    (CostCalculation.calculate exampleParams).subtotal > 0 ∧
      (CostCalculation.calculate exampleParams).percentages.filament +
        (CostCalculation.calculate exampleParams).percentages.electricity +
        (CostCalculation.calculate exampleParams).percentages.depreciation +
        (CostCalculation.calculate exampleParams).percentages.consumables +
        (CostCalculation.calculate exampleParams).percentages.labor = 100 := by
  have hpos : (CostCalculation.calculate exampleParams).subtotal > 0 := by
    show CostCalculation.subtotal exampleParams > 0
    norm_num [CostCalculation.subtotal, CostCalculation.filamentCost,
      CostCalculation.electricityCost, CostCalculation.energyKwh, CostCalculation.powerWatts,
      CostCalculation.printTimeHours, CostCalculation.depreciationCost,
      CostCalculation.printerDepreciationCost, CostCalculation.amsDepreciationCost,
      CostCalculation.consumablesCost, CostCalculation.laborCost,
      Printer.getDepreciationPerHour, Printer.getAmsDepreciationCost,
      Printer.getAmsDepreciationPerHour, Filament.getPricePerGram,
      exampleParams, examplePrinter, exampleFilament]
  exact ⟨hpos, ((calculate_percentages_spec exampleParams).1 hpos).2.2.2.2.2.1⟩

/-- C4: the electricity cost of a calculation is kWh × ratePerKwh with
kWh = totalWatts/1000 × minutes/60, where totalWatts is the printer's
printing watts plus the auxiliary module's working watts when one is
attached, and the printing watts alone when not. -/
theorem calculate_electricity_spec (p : CalcParams) :
    (CostCalculation.calculate p).electricityCost =
        (CostCalculation.calculate p).electricityKwh * p.electricityRate ∧
    (CostCalculation.calculate p).electricityKwh =
        (CostCalculation.calculate p).electricityWatts / 1000 * (p.printTimeMinutes / 60) ∧
    (∀ a : AmsModule, p.printer.hasAms = true → p.printer.ams = some a →
      (CostCalculation.calculate p).electricityWatts =
        p.printer.powerConsumption.printing + a.powerConsumption.working) ∧
    ((p.printer.hasAms = false ∨ p.printer.ams = none) →
      (CostCalculation.calculate p).electricityWatts = p.printer.powerConsumption.printing) := by
  refine ⟨rfl, ?_, ?_, ?_⟩
  · show CostCalculation.energyKwh p =
      CostCalculation.powerWatts p / 1000 * (p.printTimeMinutes / 60)
    simp only [CostCalculation.energyKwh, CostCalculation.printTimeHours]
    ring
  · intro a hA hB
    show CostCalculation.powerWatts p = _
    rw [CostCalculation.powerWatts, hA, hB]
  · intro hor
    show CostCalculation.powerWatts p = _
    rw [CostCalculation.powerWatts]
    rcases hor with hA | hB
    · rw [hA]
    · rw [hB]; cases p.printer.hasAms <;> rfl

/-- Witness for C4 at the AMS-equipped example printer: total watts are the
printing watts plus the module's working watts. -/
theorem calculate_electricity_spec_witness :
    amsParams.printer.hasAms = true ∧ amsParams.printer.ams = some amsUnit ∧
      (CostCalculation.calculate amsParams).electricityWatts =
        amsParams.printer.powerConsumption.printing + amsUnit.powerConsumption.working :=
  ⟨rfl, rfl, (calculate_electricity_spec amsParams).2.2.1 amsUnit rfl rfl⟩

/-- C7: `breakEvenAnalysis` returns `profitable: false` with
`breakEvenQuantity = ∞` exactly when the per-unit margin is ≤ 0, and
otherwise `profitable: true` with `breakEvenQuantity = ⌈fixedCosts/margin⌉`
— always a normal return value; in particular analyze(500, 2, 1) is not
profitable with quantity ∞, and analyze(500, 2, 7) has margin 5 and
quantity 100. -/
theorem breakEvenAnalysis_spec (fixedCosts costPerUnit pricePerUnit : ℚ) :
    (CostCalculation.breakEvenAnalysis fixedCosts costPerUnit pricePerUnit).marginPerUnit =
        pricePerUnit - costPerUnit ∧
    (((CostCalculation.breakEvenAnalysis fixedCosts costPerUnit pricePerUnit).profitable = false ∧
        (CostCalculation.breakEvenAnalysis fixedCosts costPerUnit pricePerUnit).breakEvenQuantity = ⊤)
      ↔ pricePerUnit - costPerUnit ≤ 0) ∧
    (0 < pricePerUnit - costPerUnit →
      (CostCalculation.breakEvenAnalysis fixedCosts costPerUnit pricePerUnit).profitable = true ∧
      (CostCalculation.breakEvenAnalysis fixedCosts costPerUnit pricePerUnit).breakEvenQuantity =
        ((⌈fixedCosts / (pricePerUnit - costPerUnit)⌉ : ℤ) : ℚ)) ∧
    (CostCalculation.breakEvenAnalysis 500 2 1).profitable = false ∧
    (CostCalculation.breakEvenAnalysis 500 2 1).breakEvenQuantity = ⊤ ∧
    (CostCalculation.breakEvenAnalysis 500 2 7).marginPerUnit = 5 ∧
    (CostCalculation.breakEvenAnalysis 500 2 7).breakEvenQuantity = ((100 : ℚ) : WithTop ℚ) := by
  refine ⟨?_, ?_, ?_, ?_, ?_, ?_, ?_⟩
  · by_cases h : pricePerUnit - costPerUnit ≤ 0 <;>
      simp [CostCalculation.breakEvenAnalysis, h]
  · by_cases h : pricePerUnit - costPerUnit ≤ 0 <;>
      simp [CostCalculation.breakEvenAnalysis, h]
  · intro h
    have h' : ¬ pricePerUnit - costPerUnit ≤ 0 := not_le.mpr h
    simp [CostCalculation.breakEvenAnalysis, h']
  · norm_num [CostCalculation.breakEvenAnalysis]
  · norm_num [CostCalculation.breakEvenAnalysis]
  · norm_num [CostCalculation.breakEvenAnalysis]
  · norm_num [CostCalculation.breakEvenAnalysis]

/-- Witness for C7 at analyze(500, 2, 7): margin 5 > 0, profitable, with
quantity ⌈500/5⌉. -/
theorem breakEvenAnalysis_spec_witness :
    (0:ℚ) < 7 - 2 ∧
      ((CostCalculation.breakEvenAnalysis 500 2 7).profitable = true ∧
        (CostCalculation.breakEvenAnalysis 500 2 7).breakEvenQuantity =
          ((⌈(500 : ℚ) / (7 - 2)⌉ : ℤ) : ℚ)) :=
  ⟨by norm_num, (breakEvenAnalysis_spec 500 2 7).2.2.1 (by norm_num)⟩

/-- C9 fails on the code: the `Printer` constructor in `src/` reads neither
`hasAms` nor `ams`, and `toJSON` emits neither, so the record produced by
`App.savePrinter` (which carries both) does not round-trip — the AMS fields
are dropped, although the engine and the UI read them back from the
instance.  Evaluated at the concrete saved record. -/
theorem printer_roundtrip_drops_ams :
    savedPrinterRecord.hasAms = some true ∧
    savedPrinterRecord.ams = some amsUnit ∧
    (mkPrinter savedPrinterRecord "uuid-1" "2026-01-01").hasAms = false ∧
    (mkPrinter savedPrinterRecord "uuid-1" "2026-01-01").ams = none ∧
    ((mkPrinter savedPrinterRecord "uuid-1" "2026-01-01").toJSON).hasAms = none ∧
    ((mkPrinter savedPrinterRecord "uuid-1" "2026-01-01").toJSON).ams = none :=
  ⟨rfl, rfl, rfl, rfl, rfl, rfl⟩

theorem pricePerGramChecked_eq (f : Filament) :
    CostCalculation.pricePerGramChecked f = Except.ok f.getPricePerGram := by
  rw [CostCalculation.pricePerGramChecked, Filament.getPricePerGram, CostCalculation.checkedDiv]
  split_ifs with h1 h2
  · rfl
  · exact absurd (le_of_eq h2) h1
  · rfl

theorem depreciationPerHourChecked_eq (pr : Printer) :
    CostCalculation.depreciationPerHourChecked pr = Except.ok pr.getDepreciationPerHour := by
  rw [CostCalculation.depreciationPerHourChecked, Printer.getDepreciationPerHour,
    CostCalculation.checkedDiv]
  split_ifs with h1 h2
  · rfl
  · exact absurd (le_of_eq h2) h1
  · rfl

theorem costPerHourChecked_eq (c : Consumable) :
    CostCalculation.costPerHourChecked c = Except.ok c.getCostPerHour := by
  rw [CostCalculation.costPerHourChecked, Consumable.getCostPerHour, CostCalculation.checkedDiv]
  split_ifs with h1 h2
  · rfl
  · exact absurd (le_of_eq h2) h1
  · rfl

theorem exceptOkBind {α β : Type} (a : α) (f : α → Except String β) :
    (Except.ok a >>= f : Except String β) = f a := rfl

theorem amsDepreciationCostChecked_eq (pr : Printer) (m : ℚ) :
    CostCalculation.amsDepreciationCostChecked pr m = Except.ok (pr.getAmsDepreciationCost m) := by
  unfold CostCalculation.amsDepreciationCostChecked Printer.getAmsDepreciationCost
    Printer.getAmsDepreciationPerHour amsDepreciationMethod
  cases hA : pr.hasAms <;> cases hB : pr.ams
  · rfl
  · rfl
  · rfl
  · rename_i a
    by_cases h1 : a.estimatedLifetimeHours ≤ 0
    · simp only [if_pos h1, exceptOkBind]
    · have h2 : a.estimatedLifetimeHours ≠ 0 := fun he => h1 (le_of_eq he)
      simp only [if_neg h1, CostCalculation.checkedDiv, if_neg h2, exceptOkBind]

theorem consumablesFoldlM_eq (hours : ℚ) :
    ∀ (l : List Consumable) (acc : ℚ),
      (l.foldlM (fun acc c => do
          let cph ← CostCalculation.costPerHourChecked c
          Except.ok (acc + cph * hours)) acc : Except String ℚ) =
        Except.ok (l.foldl (fun acc c => acc + c.getCostPerHour * hours) acc)
  | [], acc => rfl
  | c :: cs, acc => by
      rw [List.foldlM_cons, List.foldl_cons, costPerHourChecked_eq]
      exact consumablesFoldlM_eq hours cs (acc + c.getCostPerHour * hours)

theorem percentagesChecked_eq (p : CalcParams) :
    CostCalculation.percentagesChecked p = Except.ok (CostCalculation.percentages p) := by
  rw [CostCalculation.percentagesChecked, CostCalculation.percentages]
  split_ifs with h
  · have hne : CostCalculation.subtotal p ≠ 0 := ne_of_gt h
    simp only [CostCalculation.checkedDiv, if_neg hne, exceptOkBind]
  · rfl

/-- C2: `calculate` returns normally on every parameter record whose printer
is a printer instance — every division the pipeline performs has a nonzero
divisor thanks to the source's guards, and the dynamic dispatch of
`printer.getAmsDepreciationCost` resolves (the method being modelled from the
spec) — so the checked pipeline, which surfaces every potential JavaScript
failure as an error, agrees with `calculate` on all inputs, degenerate
configurations (zero or negative lifetimes, zero spool weight, zero print
time, empty consumables list) included. -/
theorem calculateChecked_ok (p : CalcParams) :
    CostCalculation.calculateChecked p = Except.ok (CostCalculation.calculate p) := by
  by_cases hf : p.failureRate < 1
  · have h1 : (1:ℚ) - p.failureRate ≠ 0 := ne_of_gt (sub_pos.mpr hf)
    simp only [CostCalculation.calculateChecked, pricePerGramChecked_eq,
      depreciationPerHourChecked_eq, amsDepreciationCostChecked_eq,
      consumablesFoldlM_eq, percentagesChecked_eq, exceptOkBind, if_pos hf,
      CostCalculation.checkedDiv, if_neg h1]
    simp only [CostCalculation.calculate, CostCalculation.filamentCost,
      CostCalculation.printerDepreciationCost, CostCalculation.amsDepreciationCost,
      CostCalculation.depreciationCost, CostCalculation.consumablesCost,
      CostCalculation.subtotal, CostCalculation.laborCost, CostCalculation.failureBuffer,
      CostCalculation.markupAmount, CostCalculation.total, CostCalculation.effectiveCost,
      if_pos hf]
  · simp only [CostCalculation.calculateChecked, pricePerGramChecked_eq,
      depreciationPerHourChecked_eq, amsDepreciationCostChecked_eq,
      consumablesFoldlM_eq, percentagesChecked_eq, exceptOkBind, if_neg hf]
    simp only [CostCalculation.calculate, CostCalculation.filamentCost,
      CostCalculation.printerDepreciationCost, CostCalculation.amsDepreciationCost,
      CostCalculation.depreciationCost, CostCalculation.consumablesCost,
      CostCalculation.subtotal, CostCalculation.laborCost, CostCalculation.failureBuffer,
      CostCalculation.markupAmount, CostCalculation.total, CostCalculation.effectiveCost,
      if_neg hf]

theorem foldl_min_mem : ∀ (ts : List ℚ) (t : ℚ), ts.foldl min t = t ∨ ts.foldl min t ∈ ts
  | [], _ => Or.inl rfl
  | a :: as, t => by
      rw [List.foldl_cons]
      rcases foldl_min_mem as (min t a) with h | h
      · rcases min_choice t a with h2 | h2
        · exact Or.inl (h.trans h2)
        · refine Or.inr ?_
          rw [h, h2]
          exact List.mem_cons_self a as
      · exact Or.inr (List.mem_cons_of_mem a h)

theorem foldl_min_le : ∀ (ts : List ℚ) (t : ℚ),
    ts.foldl min t ≤ t ∧ ∀ x ∈ ts, ts.foldl min t ≤ x
  | [], t => ⟨le_refl t, fun x hx => absurd hx (List.not_mem_nil x)⟩
  | a :: as, t => by
      rw [List.foldl_cons]
      obtain ⟨h1, h2⟩ := foldl_min_le as (min t a)
      refine ⟨h1.trans (min_le_left t a), fun x hx => ?_⟩
      rcases List.mem_cons.mp hx with rfl | hx
      · exact h1.trans (min_le_right t x)
      · exact h2 x hx

theorem foldl_max_mem : ∀ (ts : List ℚ) (t : ℚ), ts.foldl max t = t ∨ ts.foldl max t ∈ ts
  | [], _ => Or.inl rfl
  | a :: as, t => by
      rw [List.foldl_cons]
      rcases foldl_max_mem as (max t a) with h | h
      · rcases max_choice t a with h2 | h2
        · exact Or.inl (h.trans h2)
        · refine Or.inr ?_
          rw [h, h2]
          exact List.mem_cons_self a as
      · exact Or.inr (List.mem_cons_of_mem a h)

theorem foldl_max_ge : ∀ (ts : List ℚ) (t : ℚ),
    t ≤ ts.foldl max t ∧ ∀ x ∈ ts, x ≤ ts.foldl max t
  | [], t => ⟨le_refl t, fun x hx => absurd hx (List.not_mem_nil x)⟩
  | a :: as, t => by
      rw [List.foldl_cons]
      obtain ⟨h1, h2⟩ := foldl_max_ge as (max t a)
      refine ⟨(le_max_left t a).trans h1, fun x hx => ?_⟩
      rcases List.mem_cons.mp hx with rfl | hx
      · exact (le_max_right t x).trans h1
      · exact h2 x hx

/-- C6: `compareScenarios` returns one annotated entry per scenario;
on a non-empty scenario list each entry's `isLowest` (resp. `isHighest`)
holds exactly when its total equals the minimum (resp. maximum) total — so
all tied entries are flagged — `differenceFromLowest` is the distance to the
minimum total, and `percentFromLowest` is that distance as a percentage of
the minimum total when it is positive and 0 otherwise; a single scenario is
simultaneously lowest and highest. -/
theorem compareScenarios_spec :
    (∀ scenarios : List CalcParams,
        (CostCalculation.compareScenarios scenarios).length = scenarios.length) ∧
    (∀ scenarios : List CalcParams, scenarios ≠ [] →
      ∀ e ∈ CostCalculation.compareScenarios scenarios,
        ∃ m M : ℚ,
          m ∈ scenarios.map (fun s => (CostCalculation.calculate s).total) ∧
          (∀ x ∈ scenarios.map (fun s => (CostCalculation.calculate s).total), m ≤ x) ∧
          M ∈ scenarios.map (fun s => (CostCalculation.calculate s).total) ∧
          (∀ x ∈ scenarios.map (fun s => (CostCalculation.calculate s).total), x ≤ M) ∧
          (e.isLowest = true ↔ e.result.total = m) ∧
          (e.isHighest = true ↔ e.result.total = M) ∧
          e.differenceFromLowest = e.result.total - m ∧
          (0 < m → e.percentFromLowest = (e.result.total - m) / m * 100) ∧
          (m ≤ 0 → e.percentFromLowest = 0)) ∧
    (∀ s : CalcParams, ∀ e ∈ CostCalculation.compareScenarios [s],
        e.isLowest = true ∧ e.isHighest = true) := by
  refine ⟨?_, ?_, ?_⟩
  · intro scenarios
    cases scenarios with
    | nil => rfl
    | cons s ss =>
        simp [CostCalculation.compareScenarios]
  · intro scenarios hne e he
    obtain ⟨s, ss, rfl⟩ : ∃ s ss, scenarios = s :: ss := by
      cases scenarios with
      | nil => exact absurd rfl hne
      | cons s ss => exact ⟨s, ss, rfl⟩
    simp only [CostCalculation.compareScenarios, List.map_cons] at he
    obtain ⟨ir, hir, rfl⟩ := List.mem_map.mp he
    have hmem : ir.2 ∈ CostCalculation.calculate s :: ss.map CostCalculation.calculate := by
      have h := List.mem_map_of_mem Prod.snd hir
      rwa [List.enum_map_snd] at h
    refine ⟨(ss.map CostCalculation.calculate |>.map CalcResult.total).foldl min
        (CostCalculation.calculate s).total,
      (ss.map CostCalculation.calculate |>.map CalcResult.total).foldl max
        (CostCalculation.calculate s).total, ?_, ?_, ?_, ?_, ?_, ?_, rfl, ?_, ?_⟩
    · rcases foldl_min_mem (ss.map CostCalculation.calculate |>.map CalcResult.total)
        (CostCalculation.calculate s).total with h | h
      · rw [h]
        simp
      · simp only [List.map_map] at h
        simp [Function.comp] at h ⊢
        exact Or.inr h
    · intro x hx
      obtain ⟨h1, h2⟩ := foldl_min_le (ss.map CostCalculation.calculate |>.map CalcResult.total)
        (CostCalculation.calculate s).total
      simp only [List.map_cons, List.mem_cons] at hx
      rcases hx with rfl | hx
      · exact h1
      · refine h2 x ?_
        simp only [List.map_map]
        simpa [Function.comp] using hx
    · rcases foldl_max_mem (ss.map CostCalculation.calculate |>.map CalcResult.total)
        (CostCalculation.calculate s).total with h | h
      · rw [h]
        simp
      · simp only [List.map_map] at h
        simp [Function.comp] at h ⊢
        exact Or.inr h
    · intro x hx
      obtain ⟨h1, h2⟩ := foldl_max_ge (ss.map CostCalculation.calculate |>.map CalcResult.total)
        (CostCalculation.calculate s).total
      simp only [List.map_cons, List.mem_cons] at hx
      rcases hx with rfl | hx
      · exact h1
      · refine h2 x ?_
        simp only [List.map_map]
        simpa [Function.comp] using hx
    · simp
    · simp
    · intro hm
      exact if_pos hm
    · intro hm
      exact if_neg (not_lt.mpr hm)
  · intro s e he
    simp only [CostCalculation.compareScenarios, List.map_cons, List.map_nil] at he
    simp only [List.enum, List.enumFrom, List.map_cons, List.map_nil, List.mem_singleton] at he
    subst he
    constructor <;> simp

/-- Witness for C6 at the spec's comparator example list (three labor-only
scenarios with totals 10, 7 and 12). -/
theorem compareScenarios_spec_witness :
    compareExample ≠ [] ∧
      ∀ e ∈ CostCalculation.compareScenarios compareExample,
        ∃ m M : ℚ,
          m ∈ compareExample.map (fun s => (CostCalculation.calculate s).total) ∧
          (∀ x ∈ compareExample.map (fun s => (CostCalculation.calculate s).total), m ≤ x) ∧
          M ∈ compareExample.map (fun s => (CostCalculation.calculate s).total) ∧
          (∀ x ∈ compareExample.map (fun s => (CostCalculation.calculate s).total), x ≤ M) ∧
          (e.isLowest = true ↔ e.result.total = m) ∧
          (e.isHighest = true ↔ e.result.total = M) ∧
          e.differenceFromLowest = e.result.total - m ∧
          (0 < m → e.percentFromLowest = (e.result.total - m) / m * 100) ∧
          (m ≤ 0 → e.percentFromLowest = 0) :=
  ⟨by simp [compareExample],
    compareScenarios_spec.2.1 compareExample (by simp [compareExample])⟩

end PrintCost
